import Mathlib

/-!
Verification of the stationary deterministic leader election protocol
(src/alg/leaderelection_stationary_deterministic.cpp and .h).

The development shallowly embeds the per-activation decision logic of the
particle and node code: pure guard computations become Lean functions on the
fields they read, tokens become structures carrying the fields of the
corresponding C++ token structs, and each embedded function cites the source
lines it was translated from.
-/

namespace StationaryDeterministicLE

/-- Particle protocol states, mirroring the State enum of
LeaderElectionStationaryDeterministicParticle (header, lines 26 to 35). -/
inductive PState where
  | IdentificationLabeling
  | StretchExpansion
  | Demoted
  | TreeFormation
  | TreeComparison
  | Candidate
  | Leader
  | Finished
deriving DecidableEq, Repr

/-- Node creation during IdentificationLabeling (activate, lines 53 to 84).
Given whether the particle has a neighbour at direction dir+1 and at dir, a
boundary node is created exactly when one of the two slots is empty; a node
adjacent to a neighbour on either side is shared between two particles and is
assigned unary label and count -1, a private node is assigned +1. -/
def initNodeCount (nbrAtDirPlusOne nbrAtDir : Bool) : Option Int :=
  if !nbrAtDirPlusOne || !nbrAtDir then
    if nbrAtDirPlusOne || nbrAtDir then some (-1) else some 1
  else none

/-- Action emitted by a stretch head that has a successor upon consuming a
CountReturnToken (activate, lines 1749 to 1804). The enclosing branch requires
mergePending to be false, countSent to be true and lexCompInit to be false, so
the inner lexCompInit test of line 1791 always passes. -/
inductive HeadAction where
  | noAction
  | attemptMerge (value : Int)
  | lexInit (value : Int) (tryMerge : Bool)
deriving DecidableEq, Repr

/-- Head processing of a CountReturnToken carrying value (lines 1753 to 1803):
a strictly larger positive count with sum at most 6 triggers an
AttemptMergeToken; an equal positive count with sum at most 6 initiates
lexicographic comparison with a later merge attempt; an equal count in
{1, 2, 3, 6} initiates lexicographic comparison without merging. -/
def headProcessCountReturn (count value : Int) : HeadAction :=
  if 0 < count ∧ value < count ∧ count + value ≤ 6 then
    HeadAction.attemptMerge count
  else if 0 < count ∧ count = value ∧ count + value ≤ 6 then
    HeadAction.lexInit count true
  else if (count = 1 ∨ count = 2 ∨ count = 3 ∨ count = 6) ∧ count = value then
    HeadAction.lexInit count false
  else
    HeadAction.noAction

/-- Merge request decision of a head that is also the tail of its stretch
(activate, lines 1690 to 1707): true exactly when the node sends a
MergeRequestToken to the next stretch, reading the next head count directly. -/
def singletonMergeRequest (unaryLabel nextCount : Int) (mergePending : Bool) : Bool :=
  decide (0 < unaryLabel) && !mergePending &&
    decide (nextCount < unaryLabel) && decide (unaryLabel + nextCount ≤ 6)

/-- Response of a tail node to an AttemptMergeToken (activate, lines 1973 to
1987): the token value is the head count; the guard is re-checked against the
current count of the clockwise neighbouring head. -/
inductive TailMergeAction where
  | sendMergeRequest
  | sendMergeNack
deriving DecidableEq, Repr

def tailProcessAttemptMerge (value nbrHeadCount : Int) : TailMergeAction :=
  if 0 < value ∧ nbrHeadCount < value ∧ value + nbrHeadCount ≤ 6 then
    TailMergeAction.sendMergeRequest
  else
    TailMergeAction.sendMergeNack

/-- C1: the claimed invariant 1 <= weight <= 6 already fails at node
initialization: a boundary node created with a neighbour at direction dir but
none at dir+1 is shared and receives count -1, below the claimed lower
bound 1. -/
theorem C1_weight_bounds_counterexample :
    initNodeCount false true = some (-1) ∧ ¬ (1 ≤ (-1 : Int)) := by
  exact ⟨rfl, by decide⟩

/-- C1 amended: initialization assigns every created node a count of -1 or +1,
hence at most 6; and every merge request site (singleton head, head consuming a
CountReturnToken, tail consuming an AttemptMergeToken) only requests a merge
whose combined weight is at most 6, so the upper bound 6 is preserved while the
lower bound 1 does not hold in general. -/
theorem C1_weight_bounds_amended (b1 b2 : Bool) (n cnt v u nc : Int)
    (mp : Bool) (hinit : initNodeCount b1 b2 = some n) :
    ((n = -1 ∨ n = 1) ∧ n ≤ 6) ∧
    (headProcessCountReturn cnt v = HeadAction.attemptMerge cnt → cnt + v ≤ 6) ∧
    (singletonMergeRequest u nc mp = true → u + nc ≤ 6) ∧
    (tailProcessAttemptMerge cnt v = TailMergeAction.sendMergeRequest →
      cnt + v ≤ 6) := by
  refine ⟨?_, ?_, ?_, ?_⟩
  · unfold initNodeCount at hinit
    cases b1 <;> cases b2 <;> simp_all <;> omega
  · unfold headProcessCountReturn
    split_ifs <;> simp_all
  · unfold singletonMergeRequest
    intro h
    simp_all
  · unfold tailProcessAttemptMerge
    split_ifs <;> simp_all

/-- C1 amended, witness at a concrete input. -/
theorem C1_weight_bounds_amended_witness :
    ((-1 : Int) = -1 ∨ (-1 : Int) = 1) ∧ (-1 : Int) ≤ 6 :=
  (C1_weight_bounds_amended false true (-1) 4 2 1 1 false rfl).1

/-- C2: the claimed merge condition is not equivalent to the implemented one:
a head with count 0 receiving the value -1 satisfies the claimed guard
(0 > -1 and 0 + -1 <= 6) yet the code, which additionally requires a strictly
positive own count, issues no merge attempt. -/
theorem C2_merge_guard_counterexample :
    ((-1 : Int) < 0 ∧ (0 : Int) + (-1) ≤ 6) ∧
    headProcessCountReturn 0 (-1) = HeadAction.noAction := by
  exact ⟨by decide, by decide⟩

/-- C2 amended: a merge attempt toward the clockwise neighbour is issued if and
only if the own weight is strictly positive, strictly greater than the received
count, and the sum of the two counts is at most 6; in particular a merge whose
resulting weight would exceed 6 is never requested. -/
theorem C2_merge_guard_amended (cnt v u nc : Int) (mp : Bool) :
    (headProcessCountReturn cnt v = HeadAction.attemptMerge cnt ↔
      0 < cnt ∧ v < cnt ∧ cnt + v ≤ 6) ∧
    (singletonMergeRequest u nc mp = true ↔
      0 < u ∧ mp = false ∧ nc < u ∧ u + nc ≤ 6) ∧
    (tailProcessAttemptMerge cnt v = TailMergeAction.sendMergeRequest ↔
      0 < cnt ∧ v < cnt ∧ cnt + v ≤ 6) := by
  refine ⟨?_, ?_, ?_⟩
  · unfold headProcessCountReturn
    split_ifs <;> simp_all
  · unfold singletonMergeRequest
    cases mp <;> simp
    omega
  · unfold tailProcessAttemptMerge
    split_ifs <;> simp_all

/-- C6: a head that receives a count equal to its own weight, both lying in
{1, 2, 3, 6}, issues no merge attempt and instead sends a LexCompInitToken
carrying its count toward the clockwise adjacent stretch. -/
theorem C6_equal_weights_lex_init (cnt : Int)
    (h : cnt = 1 ∨ cnt = 2 ∨ cnt = 3 ∨ cnt = 6) :
    (∃ tm, headProcessCountReturn cnt cnt = HeadAction.lexInit cnt tm) ∧
    ∀ v, headProcessCountReturn cnt cnt ≠ HeadAction.attemptMerge v := by
  have key : headProcessCountReturn cnt cnt = HeadAction.lexInit cnt true ∨
      headProcessCountReturn cnt cnt = HeadAction.lexInit cnt false := by
    rcases h with h | h | h | h <;> subst h
    · exact Or.inl (by decide)
    · exact Or.inl (by decide)
    · exact Or.inl (by decide)
    · exact Or.inr (by decide)
  rcases key with k | k <;>
    exact ⟨⟨_, k⟩, fun v hv => by rw [k] at hv; exact absurd hv (by simp)⟩

/-- C6, witness at a concrete input. -/
theorem C6_equal_weights_lex_init_witness :
    ∃ tm, headProcessCountReturn 2 2 = HeadAction.lexInit 2 tm :=
  (C6_equal_weights_lex_init 2 (by decide)).1

/-- Fields of a TerminationDetectionToken (header, lines 464 to 475). -/
structure DetectToken where
  counter : Int
  ttl : Int
  traversed : Int
deriving DecidableEq, Repr

/-- Immediate response of a stretch head holding a TerminationDetectionToken
(activate, lines 1295 to 1316): either the token is consumed and a
TerminationDetectionReturnToken with termination false is sent back clockwise,
or the token is kept while lexicographic comparison is started or awaited. -/
inductive DetectAction where
  | returnFalse
  | startLexComp
  | waitLexComp
deriving DecidableEq, Repr

/-- Head processing of a pending TerminationDetectionToken. The mergePending
flag is part of the head state but is never consulted by this branch of the
code; merge traffic is instead detected by tail and internal nodes while the
token travels. -/
def headProcessDetect (count : Int) (mergePending lexCompInit : Bool)
    (tok : DetectToken) : DetectAction :=
  if tok.counter ≠ count then DetectAction.returnFalse
  else if !lexCompInit then DetectAction.startLexComp
  else DetectAction.waitLexComp

/-- C3: the claim fails: a head with a pending merge whose count equals the
token counter does not send back a return token with termination false; it
keeps the token and starts lexicographic comparison. -/
theorem C3_detect_head_counterexample :
    headProcessDetect 3 true false ⟨3, 2, 0⟩ = DetectAction.startLexComp ∧
    DetectAction.startLexComp ≠ DetectAction.returnFalse := by
  exact ⟨by decide, by decide⟩

/-- C3 amended: a head holding a TerminationDetectionToken immediately sends
back a TerminationDetectionReturnToken with termination false, without
forwarding the token, exactly when its own count differs from the token
counter; the pending-merge state of the head plays no role in this decision. -/
theorem C3_detect_head_amended (count : Int) (mp lci : Bool)
    (tok : DetectToken) :
    headProcessDetect count mp lci tok = DetectAction.returnFalse ↔
      tok.counter ≠ count := by
  unfold headProcessDetect
  split_ifs <;> simp_all

/-- Outcome of the draw branch of lexicographic comparison at a head (activate,
lines 1560 to 1570), reached when both stretches are exhausted with
firstLargerLabel still 0. A sendDetect outcome passes a
TerminationDetectionToken counter-clockwise, to prevNodeDir. -/
inductive DrawAction where
  | sendDetect (counter ttl traversed : Int)
  | becomeLeader
  | noAction
deriving DecidableEq, Repr

/-- Draw handling: counts 1, 2 and 3 initiate termination detection unless it
is already running; count 6 makes the particle the leader directly. -/
def headProcessDraw (count : Int) (tdInitiated : Bool) : DrawAction :=
  if (count = 1 ∨ count = 2 ∨ count = 3) ∧ tdInitiated = false then
    DrawAction.sendDetect count (6 / count) 0
  else if count = 6 then DrawAction.becomeLeader
  else DrawAction.noAction

/-- C4: the claim fails: a head that finds the comparison a draw with count 6
does not send a TerminationDetectionToken at all; it becomes the leader
immediately. -/
theorem C4_draw_counterexample :
    headProcessDraw 6 false = DrawAction.becomeLeader ∧
    DrawAction.becomeLeader ≠ DrawAction.sendDetect 6 1 0 := by
  exact ⟨by decide, by decide⟩

/-- C4 amended: on a lexicographic draw, a head with count in {1, 2, 3} that
has not yet initiated termination detection sends a TerminationDetectionToken
carrying counter equal to count, ttl equal to 6/count and traversed 0 in the
counter-clockwise direction; a head with count 6 becomes the leader
immediately instead. -/
theorem C4_draw_amended (count : Int) (tdi : Bool)
    (h1 : count = 1 ∨ count = 2 ∨ count = 3) (h2 : tdi = false) :
    headProcessDraw count tdi = DrawAction.sendDetect count (6 / count) 0 ∧
    headProcessDraw 6 tdi = DrawAction.becomeLeader := by
  constructor
  · unfold headProcessDraw
    rw [if_pos ⟨h1, h2⟩]
  · unfold headProcessDraw
    rcases h1 with h | h | h <;> subst h2 <;> decide

/-- C4 amended, witness at a concrete input. -/
theorem C4_draw_amended_witness :
    headProcessDraw 2 false = DrawAction.sendDetect 2 3 0 :=
  (C4_draw_amended 2 false (by decide) rfl).1

/-- Head and particle fields consulted while processing a
TerminationDetectionReturnToken (activate, lines 1319 to 1357). -/
structure HeadTDState where
  pstate : PState
  tree : Bool
  headCount : Int
  count : Int
  tdInitiated : Bool
deriving DecidableEq, Repr

/-- Fields of a TerminationDetectionReturnToken (header, lines 476 to 489). -/
structure ReturnToken where
  counter : Int
  ttl : Int
  traversed : Int
  termination : Bool
deriving DecidableEq, Repr

/-- Head processing of a TerminationDetectionReturnToken: the termination flag
is forced to false when the head count differs from the token counter; when
the token has completed its journey back and the head is the initiator, the
particle becomes Leader at count 6 or a tree-phase Candidate otherwise; an
unfinished token is passed back with traversed incremented. -/
def headProcessReturn (s : HeadTDState) (tok : ReturnToken) :
    HeadTDState × Option ReturnToken :=
  let term := tok.termination && decide (s.count = tok.counter)
  if tok.ttl ≤ tok.traversed + 1 then
    if s.tdInitiated then
      if term then
        if s.count = 6 then
          ({ s with pstate := PState.Leader, tdInitiated := false }, none)
        else
          ({ s with
              pstate := PState.Candidate
              tree := true
              headCount := s.count
              tdInitiated := false }, none)
      else ({ s with tdInitiated := false }, none)
    else (s, none)
  else (s, some ⟨tok.counter, tok.ttl, tok.traversed + 1, term⟩)

/-- C5: an initiating head that receives back its termination detection token
with termination true and matching counter becomes the leader when its count
is 6; with count below 6 the particle enters the tree-based symmetry-breaking
phase: state Candidate, tree set to true and headCount set to its count. -/
theorem C5_return_transition (s : HeadTDState) (tok : ReturnToken)
    (hinit : s.tdInitiated = true) (hterm : tok.termination = true)
    (hctr : tok.counter = s.count) (httl : tok.ttl ≤ tok.traversed + 1) :
    (s.count = 6 → (headProcessReturn s tok).1.pstate = PState.Leader) ∧
    (s.count < 6 →
      (headProcessReturn s tok).1.pstate = PState.Candidate ∧
      (headProcessReturn s tok).1.tree = true ∧
      (headProcessReturn s tok).1.headCount = s.count) := by
  constructor
  · intro h6
    simp [headProcessReturn, httl, hinit, hterm, hctr, h6]
  · intro hlt
    have h6 : ¬ (s.count = 6) := by omega
    simp [headProcessReturn, httl, hinit, hterm, hctr, h6]

/-- C5, witness at a concrete input. -/
theorem C5_return_transition_witness :
    (headProcessReturn ⟨PState.StretchExpansion, false, 0, 3, true⟩
        ⟨3, 2, 1, true⟩).1.pstate = PState.Candidate := by
  have h := C5_return_transition ⟨PState.StretchExpansion, false, 0, 3, true⟩
    ⟨3, 2, 1, true⟩ rfl rfl rfl (by decide)
  exact (h.2 (by decide)).1

/-- Branch taken by the head of the right comparison role once both the
internal label and the neighbour label have been received (activate, lines
1451 to 1593). The value 0 encodes an exhausted stretch; labels proper are
the unary labels +1 and -1. -/
inductive LexOutcome where
  | continueComparison
  | neighbourLarger
  | ownLarger
  | draw
deriving DecidableEq, Repr

/-- One comparison step of the right role: firstLargerLabel is updated only
while it is still 0 (lines 1454 to 1464), then the pair of labels selects the
branch: own stretch exhausted first means the neighbour is lexicographically
larger, neighbour exhausted first means the own stretch is larger, both
exhausted defers to the stored firstLargerLabel, and a draw feeds the
termination detection block. -/
def lexCompStep (firstLargerLabel internalLabel nbrLabel : Int) :
    Int × LexOutcome :=
  let fll :=
    if firstLargerLabel = 0 then
      if nbrLabel < internalLabel then 1
      else if internalLabel < nbrLabel then -1
      else 0
    else firstLargerLabel
  if internalLabel = 0 ∧ nbrLabel ≠ 0 then (fll, LexOutcome.neighbourLarger)
  else if internalLabel ≠ 0 ∧ nbrLabel = 0 then (fll, LexOutcome.ownLarger)
  else if internalLabel = 0 ∧ nbrLabel = 0 then
    if fll = -1 then (fll, LexOutcome.neighbourLarger)
    else if fll = 1 then (fll, LexOutcome.ownLarger)
    else (fll, LexOutcome.draw)
  else (fll, LexOutcome.continueComparison)

/-- C7: the first strict inequality between label pairs sets firstLargerLabel
to 1 or -1 and a nonzero value is never overwritten; exhausting the own labels
first makes the own stretch the smaller one, exhausting the neighbour labels
first the larger one; when both end simultaneously the stored firstLargerLabel
decides, and if it is still 0 the comparison is a draw feeding termination
detection. -/
theorem C7_lex_comparison (f i n : Int) :
    (f ≠ 0 → (lexCompStep f i n).1 = f) ∧
    (f = 0 ∧ n < i → (lexCompStep f i n).1 = 1) ∧
    (f = 0 ∧ i < n → (lexCompStep f i n).1 = -1) ∧
    (i = 0 ∧ n ≠ 0 → (lexCompStep f i n).2 = LexOutcome.neighbourLarger) ∧
    (i ≠ 0 ∧ n = 0 → (lexCompStep f i n).2 = LexOutcome.ownLarger) ∧
    (i = 0 ∧ n = 0 ∧ f = -1 →
      (lexCompStep f i n).2 = LexOutcome.neighbourLarger) ∧
    (i = 0 ∧ n = 0 ∧ f = 1 → (lexCompStep f i n).2 = LexOutcome.ownLarger) ∧
    (i = 0 ∧ n = 0 ∧ f = 0 → (lexCompStep f i n).2 = LexOutcome.draw) := by
  unfold lexCompStep
  split_ifs <;> simp_all <;> (try (split_ifs <;> simp_all)) <;> omega

/-- C7, witness at a concrete input. -/
theorem C7_lex_comparison_witness :
    (lexCompStep 0 0 0).2 = LexOutcome.draw := by
  have h := C7_lex_comparison 0 0 0
  exact h.2.2.2.2.2.2.2 ⟨rfl, rfl, rfl⟩

/-- Per-node memory consulted by the lexicographic comparison cleanup routines
(header, lines 546 to 600), together with counts of the pending token kinds
the routines drain and the presence of a successor, which controls whether a
cleanup token is forwarded. -/
structure NodeLexState where
  firstLargerLabel : Int
  NbrLabel : Int
  internalLabel : Int
  internalLabelForNbr : Int
  requestedNbrLabel : Bool
  receivedNbrLabel : Bool
  requestedLabel : Bool
  receivedLabel : Bool
  receivedLabelRequestFromNbr : Bool
  requestedLabelForNbr : Bool
  receivedLabelForNbr : Bool
  lexCompInit : Bool
  lexicographicComparisonRight : Bool
  lexicographicComparisonLeft : Bool
  retrieved : Bool
  retrievedForNbr : Bool
  countSent : Bool
  hasSuccessor : Bool
  qReturnStretchLabel : Nat
  qEndOfNbrStretch : Nat
  qNextLabel : Nat
  qEndOfStretch : Nat
  qRetrieveNextLabel : Nat
  qReqStretchLabel : Nat
  qNextLabelForNbr : Nat
  qEndOfStretchForNbr : Nat
  qRetrieveNextLabelForNbr : Nat
deriving DecidableEq, Repr

/-- lexCompCleanUp (lines 2202 to 2235): resets the right-role comparison
fields and countSent, drains the pending right-role label tokens, and reports
whether a LexCompCleanUpToken is forwarded to the successor. -/
def lexCompCleanUp (s : NodeLexState) : NodeLexState × Bool :=
  ({ s with
      firstLargerLabel := 0
      NbrLabel := 0
      internalLabel := 0
      requestedNbrLabel := false
      receivedNbrLabel := false
      requestedLabel := false
      receivedLabel := false
      lexCompInit := false
      lexicographicComparisonRight := false
      retrieved := false
      countSent := false
      qReturnStretchLabel := 0
      qEndOfNbrStretch := 0
      qNextLabel := 0
      qEndOfStretch := 0
      qRetrieveNextLabel := 0
      qReqStretchLabel := 0 }, s.hasSuccessor)

/-- lexCompCleanUpForNbr (lines 2237 to 2256): resets the left-role comparison
fields, drains the pending left-role label tokens, and reports whether a
LexCompCleanUpForNbrToken is forwarded to the successor. -/
def lexCompCleanUpForNbr (s : NodeLexState) : NodeLexState × Bool :=
  ({ s with
      internalLabelForNbr := 0
      receivedLabelRequestFromNbr := false
      requestedLabelForNbr := false
      receivedLabelForNbr := false
      lexicographicComparisonLeft := false
      retrievedForNbr := false
      qNextLabelForNbr := 0
      qEndOfStretchForNbr := 0
      qRetrieveNextLabelForNbr := 0 }, s.hasSuccessor)

/-- The lexicographic state fields named by the claim, gathered in one
tuple. -/
def lexFields (s : NodeLexState) :
    Int × Int × Int × Int × Bool × Bool × Bool × Bool × Bool × Bool × Bool ×
      Bool × Bool × Bool × Bool × Bool :=
  (s.firstLargerLabel, s.NbrLabel, s.internalLabel, s.internalLabelForNbr,
   s.requestedNbrLabel, s.receivedNbrLabel, s.requestedLabel, s.receivedLabel,
   s.receivedLabelRequestFromNbr, s.requestedLabelForNbr,
   s.receivedLabelForNbr, s.lexCompInit, s.lexicographicComparisonRight,
   s.lexicographicComparisonLeft, s.retrieved, s.retrievedForNbr)

/-- A node whose lexicographic comparison state is clean: every comparison
field holds its reset value. -/
def lexClean (s : NodeLexState) : Prop :=
  s.firstLargerLabel = 0 ∧ s.NbrLabel = 0 ∧ s.internalLabel = 0 ∧
  s.internalLabelForNbr = 0 ∧ s.requestedNbrLabel = false ∧
  s.receivedNbrLabel = false ∧ s.requestedLabel = false ∧
  s.receivedLabel = false ∧ s.receivedLabelRequestFromNbr = false ∧
  s.requestedLabelForNbr = false ∧ s.receivedLabelForNbr = false ∧
  s.lexCompInit = false ∧ s.lexicographicComparisonRight = false ∧
  s.lexicographicComparisonLeft = false ∧ s.retrieved = false ∧
  s.retrievedForNbr = false

/-- C8: applying lexCompCleanUp or lexCompCleanUpForNbr to a node whose
lexicographic comparison state is already clean leaves every lexicographic
state field unchanged. -/
theorem C8_cleanup_idempotent (s : NodeLexState) (h : lexClean s) :
    lexFields (lexCompCleanUp s).1 = lexFields s ∧
    lexFields (lexCompCleanUpForNbr s).1 = lexFields s := by
  obtain ⟨h1, h2, h3, h4, h5, h6, h7, h8, h9, h10, h11, h12, h13, h14,
    h15, h16⟩ := h
  constructor <;>
    simp [lexCompCleanUp, lexCompCleanUpForNbr, lexFields,
      h1, h2, h3, h4, h5, h6, h7, h8, h9, h10, h11, h12, h13, h14, h15, h16]

/-- C8, witness at a concrete clean node. -/
theorem C8_cleanup_idempotent_witness :
    lexFields (lexCompCleanUp
      ⟨0, 0, 0, 0, false, false, false, false, false, false, false, false,
        false, false, false, false, true, true, 0, 0, 0, 0, 0, 0, 0, 0, 0⟩).1 =
    lexFields
      ⟨0, 0, 0, 0, false, false, false, false, false, false, false, false,
        false, false, false, false, true, true, 0, 0, 0, 0, 0, 0, 0, 0, 0⟩ :=
  (C8_cleanup_idempotent
    ⟨0, 0, 0, 0, false, false, false, false, false, false, false, false,
      false, false, false, false, true, true, 0, 0, 0, 0, 0, 0, 0, 0, 0⟩
    ⟨rfl, rfl, rfl, rfl, rfl, rfl, rfl, rfl, rfl, rfl, rfl, rfl, rfl, rfl,
      rfl, rfl⟩).1

/-- hasTerminated of LeaderElectionStationaryDeterministicSystem (lines 2629
to 2663), applied to the list of particle states: true when some particle is
in state Leader or Finished. -/
def hasTerminated (states : List PState) : Bool :=
  states.any fun s => decide (s = PState.Leader ∨ s = PState.Finished)

/-- C9: hasTerminated is true once exactly one particle holds the Leader
state, or some particle holds the Finished state; it is false whenever no
particle is in state Leader or Finished. -/
theorem C9_has_terminated (states : List PState) :
    (states.count PState.Leader = 1 → hasTerminated states = true) ∧
    (PState.Finished ∈ states → hasTerminated states = true) ∧
    ((∀ s ∈ states, s ≠ PState.Leader ∧ s ≠ PState.Finished) →
      hasTerminated states = false) := by
  refine ⟨?_, ?_, ?_⟩
  · intro h
    have hm : PState.Leader ∈ states := by
      have hpos : 0 < states.count PState.Leader := by omega
      exact List.count_pos_iff.mp hpos
    exact List.any_eq_true.mpr ⟨_, hm, by decide⟩
  · intro hm
    exact List.any_eq_true.mpr ⟨_, hm, by decide⟩
  · intro h
    rw [hasTerminated, List.any_eq_false]
    intro s hs
    have hns := h s hs
    simp [hns.1, hns.2]

/-- C9, witness at a concrete input. -/
theorem C9_has_terminated_witness :
    hasTerminated [PState.Demoted, PState.Leader] = true :=
  (C9_has_terminated [PState.Demoted, PState.Leader]).1 (by decide)

/-- Neighbourhood data consulted by getNeighborhoodEncoding (lines 1220 to
1239): for each of the six direction slots the state of the occupying
neighbour, when any, together with the parent direction and the child
directions of the calling particle. -/
structure TreeEnv where
  nbrState : Fin 6 → Option PState
  parent : Int
  children : List Int

/-- Character emitted for one neighbour slot: L for a Candidate neighbour,
else P for the parent direction, else C for a child direction, else N, and N
for an empty slot. -/
def encodingChar (env : TreeEnv) (dir : Fin 6) : Char :=
  match env.nbrState dir with
  | some s =>
    if s = PState.Candidate then 'L'
    else if (dir.val : Int) = env.parent then 'P'
    else if env.children.contains (dir.val : Int) then 'C'
    else 'N'
  | none => 'N'

/-- getNeighborhoodEncoding: the loop over directions 0 to 5, one character
each. -/
def getNeighborhoodEncoding (env : TreeEnv) : List Char :=
  [encodingChar env 0, encodingChar env 1, encodingChar env 2,
   encodingChar env 3, encodingChar env 4, encodingChar env 5]

/-- The emitted character is always one of L, P, C, N. -/
theorem encodingChar_alphabet (env : TreeEnv) (dir : Fin 6) :
    encodingChar env dir = 'L' ∨ encodingChar env dir = 'P' ∨
    encodingChar env dir = 'C' ∨ encodingChar env dir = 'N' := by
  unfold encodingChar
  rcases env.nbrState dir with _ | s
  · simp
  · simp only
    split_ifs <;> simp

/-- The character is L exactly for a Candidate neighbour. -/
theorem encodingChar_eq_L (env : TreeEnv) (dir : Fin 6) :
    encodingChar env dir = 'L' ↔ env.nbrState dir = some PState.Candidate := by
  unfold encodingChar
  rcases h : env.nbrState dir with _ | s
  · simp
  · simp only [Option.some.injEq]
    split_ifs with h1 h2 h3 <;> simp_all

/-- The character is P exactly for a non-Candidate neighbour in the parent
direction. -/
theorem encodingChar_eq_P (env : TreeEnv) (dir : Fin 6) :
    encodingChar env dir = 'P' ↔
      (∃ s, env.nbrState dir = some s ∧ s ≠ PState.Candidate) ∧
        (dir.val : Int) = env.parent := by
  unfold encodingChar
  rcases h : env.nbrState dir with _ | s
  · simp
  · simp only [Option.some.injEq]
    split_ifs with h1 h2 h3 <;> simp_all

/-- The character is C exactly for a non-Candidate neighbour in a child
direction that is not the parent direction. -/
theorem encodingChar_eq_C (env : TreeEnv) (dir : Fin 6) :
    encodingChar env dir = 'C' ↔
      (∃ s, env.nbrState dir = some s ∧ s ≠ PState.Candidate) ∧
        (dir.val : Int) ≠ env.parent ∧
        env.children.contains (dir.val : Int) = true := by
  unfold encodingChar
  rcases h : env.nbrState dir with _ | s
  · simp
  · simp only [Option.some.injEq]
    split_ifs with h1 h2 h3 <;> simp_all

/-- C10: the neighbourhood encoding has length exactly 6, uses only the
alphabet {L, P, C, N}, and position dir describes neighbour slot dir: L for a
Candidate neighbour, P for the parent, C for a child, N otherwise or for an
empty slot. -/
theorem C10_neighborhood_encoding (env : TreeEnv) :
    (getNeighborhoodEncoding env).length = 6 ∧
    (∀ c ∈ getNeighborhoodEncoding env,
      c = 'L' ∨ c = 'P' ∨ c = 'C' ∨ c = 'N') ∧
    ∀ dir : Fin 6,
      ((getNeighborhoodEncoding env)[dir.val]? = some 'L' ↔
        env.nbrState dir = some PState.Candidate) ∧
      ((getNeighborhoodEncoding env)[dir.val]? = some 'P' ↔
        (∃ s, env.nbrState dir = some s ∧ s ≠ PState.Candidate) ∧
          (dir.val : Int) = env.parent) ∧
      ((getNeighborhoodEncoding env)[dir.val]? = some 'C' ↔
        (∃ s, env.nbrState dir = some s ∧ s ≠ PState.Candidate) ∧
          (dir.val : Int) ≠ env.parent ∧
          env.children.contains (dir.val : Int) = true) := by
  refine ⟨rfl, ?_, ?_⟩
  · intro c hc
    simp only [getNeighborhoodEncoding, List.mem_cons,
      List.not_mem_nil, or_false] at hc
    rcases hc with rfl | rfl | rfl | rfl | rfl | rfl <;>
      exact encodingChar_alphabet env _
  · intro dir
    fin_cases dir <;>
      exact ⟨by
          simp only [getNeighborhoodEncoding, List.getElem?_cons_zero,
            List.getElem?_cons_succ, Option.some.injEq]
          exact encodingChar_eq_L env _,
        by
          simp only [getNeighborhoodEncoding, List.getElem?_cons_zero,
            List.getElem?_cons_succ, Option.some.injEq]
          exact encodingChar_eq_P env _,
        by
          simp only [getNeighborhoodEncoding, List.getElem?_cons_zero,
            List.getElem?_cons_succ, Option.some.injEq]
          exact encodingChar_eq_C env _⟩

end StationaryDeterministicLE
